import Mathlib

/-!
Shallow embedding of `src/auto_health_monitor.c` (kernel module
"Autonomous System Health Monitor & Dynamic Resource Adjuster").

Modelling conventions:
* `unsigned long` is 64 bits; arithmetic that can overflow or underflow in C
  is written with an explicit `% 2 ^ 64` (the timer's workload perturbation,
  the `* 2` products feeding the memory-pressure formula).
* `atomic_t` counters (`critical_alerts`, `timer_ticks`) are modelled as
  unbounded naturals: the spec treats them as monotonic session counters that
  never wrap, and no claim depends on 32-bit wrap-around.
* `ktime_t last_check_time` is omitted: it is written only by the timer
  callback, read by nobody, and no claim mentions it.
* Kernel locking (`monitor_data_spinlock`, `monitor_config_mutex`) makes each
  handler body atomic with respect to the shared state, so every entry point
  is embedded as a pure state transformer and concurrency is the free
  interleaving of those atomic steps (the `Reachable` relation below).
* `printk` calls are side-effect-free for the state and are dropped.
-/

def MAX_WORKLOAD_LEVEL : Nat := 100

def MAX_RESOURCE_FACTOR : Nat := 10

/-- `ULONG_MAX` on a 64-bit machine. -/
def ULONG_MAX : Nat := 2 ^ 64 - 1

/-- `struct auto_monitor_data` (the fields the claims are about). -/
structure MonitorData where
  current_sim_workload_level : Nat
  resource_allocation_factor : Nat
  critical_alerts : Nat
  timer_ticks : Nat
  simulated_gpu_temp : Nat
  simulated_memory_pressure : Nat
  deriving DecidableEq

/-- The state set up by `auto_monitor_init` (lines 336-342 of the source). -/
def auto_monitor_init_state : MonitorData :=
  { current_sim_workload_level := 0
    resource_allocation_factor := 5
    critical_alerts := 0
    timer_ticks := 0
    simulated_gpu_temp := 50
    simulated_memory_pressure := 0 }

/-- `monitor_work_handler` (lines 95-130): the AdjustmentEngine pass.
It snapshots the workload and the resource factor, then applies the
hysteresis policy, raising the critical-alert counter exactly when the
increment lands on `MAX_RESOURCE_FACTOR`. -/
def monitor_work_handler (s : MonitorData) : MonitorData :=
  let current_wl := s.current_sim_workload_level
  let current_rf := s.resource_allocation_factor
  if current_wl > 80 ∧ current_rf < MAX_RESOURCE_FACTOR then
    let s := { s with resource_allocation_factor := s.resource_allocation_factor + 1 }
    if s.resource_allocation_factor = MAX_RESOURCE_FACTOR then
      { s with critical_alerts := s.critical_alerts + 1 }
    else
      s
  else if current_wl < 20 ∧ current_rf > 1 then
    { s with resource_allocation_factor := s.resource_allocation_factor - 1 }
  else
    s

/-- `monitor_timer_callback` (lines 133-168), with `r` the value returned by
`get_random_u32()`.  The C computes
`wl + get_random_u32() % 20 - 10` in `unsigned long` arithmetic, so the
subtraction is addition of `2 ^ 64 - 10` modulo `2 ^ 64`; the source's
`else if (... < 0) ... = 0` clamp is dead code on an unsigned value and is
therefore absent here.  Temperature and memory pressure are recomputed from
the (possibly updated) workload on every firing. -/
def monitor_timer_callback (s : MonitorData) (r : Nat) : MonitorData :=
  let s := { s with timer_ticks := s.timer_ticks + 1 }
  let s :=
    if s.timer_ticks % 10 = 0 then
      let raw := (s.current_sim_workload_level + r % 20 + (2 ^ 64 - 10)) % 2 ^ 64
      { s with current_sim_workload_level :=
          if raw > MAX_WORKLOAD_LEVEL then MAX_WORKLOAD_LEVEL else raw }
    else
      s
  { s with
    simulated_gpu_temp := (50 + s.current_sim_workload_level / 2) % 2 ^ 64
    simulated_memory_pressure := s.current_sim_workload_level * 2 % 2 ^ 64 / 3 }

/-- Greedy base-10 digit run of `_parse_integer`: accumulates the value and
returns it with the unconsumed suffix. -/
def parse_integer : List Char → Nat → Nat × List Char
  | c :: cs, acc =>
    if c.isDigit then parse_integer cs (acc * 10 + (c.toNat - 48)) else (acc, c :: cs)
  | [], acc => (acc, [])

/-- Kernel `kstrtoul(s, 10, &res)`: strips one optional leading `'+'`,
requires at least one digit, tolerates a single trailing newline, and fails
on any other trailing character or on a value above `ULONG_MAX`.  The caller
only tests the return for `< 0`, so both `-EINVAL` and `-ERANGE` are
collapsed into `none`. -/
def kstrtoul (cs : List Char) : Option Nat :=
  let cs := if cs.head? = some '+' then cs.tail else cs
  match cs.head? with
  | none => none
  | some c =>
    if c.isDigit then
      let (v, rest) := parse_integer cs 0
      if v > ULONG_MAX then none
      else
        let rest := if rest.head? = some '\n' then rest.tail else rest
        if rest.isEmpty then some v else none
    else
      none

/-- Result of one write entry point: the C return value (byte count on
success, negative errno on failure), the state after the call, and whether
`schedule_work(&monitor_work)` was called. -/
structure WriteOutcome where
  ret : Int
  state : MonitorData
  scheduled : Bool
  deriving DecidableEq

/-- `auto_monitor_write` (lines 285-325): the byte-channel write.  Rejects
payloads longer than `sizeof(kbuf) - 1 = 255` with `-EINVAL` before touching
state; the copied bytes are null-terminated, so parsing sees the prefix up
to the first NUL byte; parse failure is `-EINVAL`; a parsed value is clamped
to `MAX_WORKLOAD_LEVEL` (the `< 0` branch is dead on an unsigned value),
the fast-tier triple is updated, work is scheduled and `len` returned. -/
def auto_monitor_write (s : MonitorData) (payload : List Char) : WriteOutcome :=
  if payload.length > 255 then ⟨-22, s, false⟩
  else
    let kbuf := payload.takeWhile (fun c => c != Char.ofNat 0)
    match kstrtoul kbuf with
    | none => ⟨-22, s, false⟩
    | some v =>
      let value := if v > MAX_WORKLOAD_LEVEL then MAX_WORKLOAD_LEVEL else v
      ⟨(payload.length : Int),
       { s with
         current_sim_workload_level := value
         simulated_gpu_temp := (50 + value / 2) % 2 ^ 64
         simulated_memory_pressure := value * 2 % 2 ^ 64 / 3 },
       true⟩

/-- `workload_store` (lines 181-207): the sysfs `current_workload` store.
Identical parse/clamp/update/schedule pipeline, but with no length guard
(sysfs null-terminates the buffer after `count` bytes); returns `count` on
success. -/
def workload_store (s : MonitorData) (payload : List Char) : WriteOutcome :=
  let buf := payload.takeWhile (fun c => c != Char.ofNat 0)
  match kstrtoul buf with
  | none => ⟨-22, s, false⟩
  | some v =>
    let new_workload := if v > MAX_WORKLOAD_LEVEL then MAX_WORKLOAD_LEVEL else v
    ⟨(payload.length : Int),
     { s with
       current_sim_workload_level := new_workload
       simulated_gpu_temp := (50 + new_workload / 2) % 2 ^ 64
       simulated_memory_pressure := new_workload * 2 % 2 ^ 64 / 3 },
     true⟩

/-- The values reported by the composite read `auto_monitor_read`
(the `snprintf` arguments, lines 252-259). -/
structure Summary where
  workload : Nat
  resource_factor : Nat
  critical_alerts : Nat
  gpu_temp : Nat
  memory_pressure : Nat
  timer_ticks : Nat
  deriving DecidableEq

/-- The snapshot taken under both locks by `auto_monitor_read`. -/
def auto_monitor_read_summary (s : MonitorData) : Summary :=
  { workload := s.current_sim_workload_level
    resource_factor := s.resource_allocation_factor
    critical_alerts := s.critical_alerts
    gpu_temp := s.simulated_gpu_temp
    memory_pressure := s.simulated_memory_pressure
    timer_ticks := s.timer_ticks }

/-- Reachable states of the module: the init state, closed under timer
firings (with an arbitrary random draw), AdjustmentEngine passes, byte-channel
writes and sysfs stores.  The read entry points and `open`/`release` do not
mutate `monitor_state` and need no constructor. -/
inductive Reachable : MonitorData → Prop
  | init : Reachable auto_monitor_init_state
  | tick (r : Nat) {s : MonitorData} : Reachable s → Reachable (monitor_timer_callback s r)
  | work {s : MonitorData} : Reachable s → Reachable (monitor_work_handler s)
  | cwrite (p : List Char) {s : MonitorData} :
      Reachable s → Reachable (auto_monitor_write s p).state
  | sstore (p : List Char) {s : MonitorData} :
      Reachable s → Reachable (workload_store s p).state

/-- A high-workload start state for exercising the alert edge. -/
def highState : MonitorData :=
  { auto_monitor_init_state with
    current_sim_workload_level := 90
    simulated_gpu_temp := 95
    simulated_memory_pressure := 60 }

/-- A state with a nonzero workload, used to show that a minus-signed write
is rejected rather than clamped to zero. -/
def wl7State : MonitorData :=
  { auto_monitor_init_state with
    current_sim_workload_level := 7
    simulated_gpu_temp := 53
    simulated_memory_pressure := 4 }

/-- A 256-byte payload of leading zeros followed by `90`: a numeric string
encoding the in-range value 90 whose length trips the byte-channel guard. -/
def oversize90 : List Char := List.replicate 254 '0' ++ ['9', '0']

/-- A 257-byte payload of leading zeros followed by `90`: numerically the
value 90, but longer than the byte-channel guard allows. -/
def zeroPadded90 : List Char := List.replicate 255 '0' ++ ['9', '0']

/-- A reachable state one firing before a 10th tick, with workload 5:
reached by writing `"5"` to the fresh module and letting nine timer
firings elapse. -/
def underflowState : MonitorData :=
  { current_sim_workload_level := 5
    resource_allocation_factor := 5
    critical_alerts := 0
    timer_ticks := 9
    simulated_gpu_temp := 52
    simulated_memory_pressure := 3 }

example : kstrtoul "90".toList = some 90 := by decide
example : kstrtoul "90\n".toList = some 90 := by decide
example : kstrtoul "+7".toList = some 7 := by decide
example : kstrtoul "-5".toList = none := by decide
example : kstrtoul "abc".toList = none := by decide
example : kstrtoul "".toList = none := by decide
example : kstrtoul "18446744073709551615".toList = some (2 ^ 64 - 1) := by decide
example : kstrtoul "18446744073709551616".toList = none := by decide

/-- An AdjustmentEngine pass never touches the fast-tier fields or the tick
counter. -/
theorem work_handler_fast_tier (s : MonitorData) :
    (monitor_work_handler s).current_sim_workload_level
        = s.current_sim_workload_level ∧
    (monitor_work_handler s).simulated_gpu_temp = s.simulated_gpu_temp ∧
    (monitor_work_handler s).simulated_memory_pressure
        = s.simulated_memory_pressure ∧
    (monitor_work_handler s).timer_ticks = s.timer_ticks := by
  simp only [monitor_work_handler]
  split_ifs <;> exact ⟨rfl, rfl, rfl, rfl⟩

/-- The resource factor after one AdjustmentEngine pass, as a function of
the snapshotted workload and factor. -/
theorem work_handler_rf (s : MonitorData) :
    (monitor_work_handler s).resource_allocation_factor =
      if s.current_sim_workload_level > 80 ∧ s.resource_allocation_factor < 10 then
        s.resource_allocation_factor + 1
      else if s.current_sim_workload_level < 20 ∧ s.resource_allocation_factor > 1 then
        s.resource_allocation_factor - 1
      else
        s.resource_allocation_factor := by
  simp only [monitor_work_handler, MAX_RESOURCE_FACTOR]
  split_ifs <;> rfl

/-- The alert counter after one AdjustmentEngine pass: it is bumped exactly
when the pass increments the factor onto `MAX_RESOURCE_FACTOR`. -/
theorem work_handler_alerts (s : MonitorData) :
    (monitor_work_handler s).critical_alerts =
      if s.current_sim_workload_level > 80 ∧ s.resource_allocation_factor < 10 then
        if s.resource_allocation_factor + 1 = 10 then
          s.critical_alerts + 1
        else
          s.critical_alerts
      else
        s.critical_alerts := by
  simp only [monitor_work_handler, MAX_RESOURCE_FACTOR]
  split_ifs <;> rfl

/-- Under a fixed high workload, `n` AdjustmentEngine passes leave the
workload untouched, ramp the resource factor to `min (rf + n) 10`, and raise
the alert counter exactly once, on the pass that lands on saturation. -/
theorem work_handler_iterate_high (s : MonitorData)
    (hw : 80 < s.current_sim_workload_level)
    (hr : s.resource_allocation_factor < 10) (n : Nat) :
    (monitor_work_handler^[n] s).current_sim_workload_level
        = s.current_sim_workload_level ∧
    (monitor_work_handler^[n] s).resource_allocation_factor
        = min (s.resource_allocation_factor + n) 10 ∧
    (monitor_work_handler^[n] s).critical_alerts
        = s.critical_alerts + (if 10 ≤ s.resource_allocation_factor + n then 1 else 0) := by
  induction n with
  | zero =>
    refine ⟨rfl, ?_, ?_⟩ <;> simp <;> omega
  | succ n ih =>
    obtain ⟨hwl, hrf, hal⟩ := ih
    rw [Function.iterate_succ_apply']
    refine ⟨?_, ?_, ?_⟩
    · rw [(work_handler_fast_tier _).1, hwl]
    · rw [work_handler_rf, hwl, hrf]
      split_ifs <;> omega
    · rw [work_handler_alerts, hwl, hrf, hal]
      split_ifs <;> omega

/-- C1: one AdjustmentEngine pass on a snapshot with workload `w` and
resource factor `r` yields `r + 1` when `w > 80 ∧ r < 10`, else `r - 1`
when `w < 20 ∧ r > 1`, else leaves the resource factor unchanged. -/
theorem c1_adjustment_policy (s : MonitorData) :
    (monitor_work_handler s).resource_allocation_factor =
      if s.current_sim_workload_level > 80 ∧ s.resource_allocation_factor < 10 then
        s.resource_allocation_factor + 1
      else if s.current_sim_workload_level < 20 ∧ s.resource_allocation_factor > 1 then
        s.resource_allocation_factor - 1
      else
        s.resource_allocation_factor :=
  work_handler_rf s

/-- C2: from any state with `resourceFactor < 10` and sustained workload
above 80, the resource factor after `n` passes is `min (rf + n) 10`, and the
alert counter grows across pass `n + 1` by exactly 1 when that pass is the
one on which the factor first reaches 10 (`rf + (n + 1) = 10`) and by 0 on
every other pass — edge-triggered, never re-firing while saturated. -/
theorem c2_alert_edge_triggered (s : MonitorData) (n : Nat)
    (hw : 80 < s.current_sim_workload_level)
    (hr : s.resource_allocation_factor < 10) :
    (monitor_work_handler^[n + 1] s).critical_alerts
        = (monitor_work_handler^[n] s).critical_alerts
          + (if s.resource_allocation_factor + (n + 1) = 10 then 1 else 0) ∧
    (monitor_work_handler^[n] s).resource_allocation_factor
        = min (s.resource_allocation_factor + n) 10 := by
  obtain ⟨-, hrf, hal⟩ := work_handler_iterate_high s hw hr n
  obtain ⟨-, -, hal'⟩ := work_handler_iterate_high s hw hr (n + 1)
  refine ⟨?_, hrf⟩
  rw [hal, hal']
  split_ifs <;> omega

/-- C2 witness: from workload 90 and resource factor 5, pass 5 is the one
that reaches saturation and raises the alert counter by 1. -/
theorem c2_alert_edge_triggered_witness :
    (monitor_work_handler^[4 + 1] highState).critical_alerts
        = (monitor_work_handler^[4] highState).critical_alerts
          + (if highState.resource_allocation_factor + (4 + 1) = 10 then 1 else 0) ∧
    (monitor_work_handler^[4] highState).resource_allocation_factor
        = min (highState.resource_allocation_factor + 4) 10 :=
  c2_alert_edge_triggered highState 4 (by decide) (by decide)

/-- A byte-channel write either leaves the state untouched (length guard or
parse failure) or replaces the fast-tier triple with the one computed from a
clamped value `v ≤ 100`. -/
theorem auto_monitor_write_state_shape (s : MonitorData) (p : List Char) :
    (auto_monitor_write s p).state = s ∨
    ∃ v, v ≤ 100 ∧ (auto_monitor_write s p).state =
      { s with
        current_sim_workload_level := v
        simulated_gpu_temp := (50 + v / 2) % 2 ^ 64
        simulated_memory_pressure := v * 2 % 2 ^ 64 / 3 } := by
  unfold auto_monitor_write
  split
  · exact Or.inl rfl
  · cases hk : kstrtoul (p.takeWhile (fun c => c != Char.ofNat 0)) with
    | none => left; simp only [hk]
    | some v =>
      simp only [hk]
      exact Or.inr ⟨_, by unfold MAX_WORKLOAD_LEVEL; split_ifs <;> omega, rfl⟩

/-- A sysfs store either leaves the state untouched (parse failure) or
replaces the fast-tier triple with the one computed from a clamped value
`v ≤ 100`. -/
theorem workload_store_state_shape (s : MonitorData) (p : List Char) :
    (workload_store s p).state = s ∨
    ∃ v, v ≤ 100 ∧ (workload_store s p).state =
      { s with
        current_sim_workload_level := v
        simulated_gpu_temp := (50 + v / 2) % 2 ^ 64
        simulated_memory_pressure := v * 2 % 2 ^ 64 / 3 } := by
  unfold workload_store
  cases hk : kstrtoul (p.takeWhile (fun c => c != Char.ofNat 0)) with
  | none => left; simp only [hk]
  | some v =>
    simp only [hk]
    exact Or.inr ⟨_, by unfold MAX_WORKLOAD_LEVEL; split_ifs <;> omega, rfl⟩

/-- The master inductive invariant of the reachable states: the workload is
in range, the resource factor is in `[1, 10]`, and the temperature and
memory-pressure fields are the pure functions of the workload that the last
complete update wrote. -/
theorem reachable_invariant (s : MonitorData) (h : Reachable s) :
    s.current_sim_workload_level ≤ 100 ∧
    1 ≤ s.resource_allocation_factor ∧ s.resource_allocation_factor ≤ 10 ∧
    s.simulated_gpu_temp = 50 + s.current_sim_workload_level / 2 ∧
    s.simulated_memory_pressure = s.current_sim_workload_level * 2 / 3 := by
  induction h with
  | init => exact ⟨by decide, by decide, by decide, rfl, rfl⟩
  | tick r _ ih =>
    obtain ⟨h1, h2, h3, -, -⟩ := ih
    simp only [monitor_timer_callback, MAX_WORKLOAD_LEVEL]
    split_ifs <;> refine ⟨?_, h2, h3, ?_, ?_⟩ <;> dsimp only <;> omega
  | work _ ih =>
    obtain ⟨h1, h2, h3, h4, h5⟩ := ih
    obtain ⟨e1, e2, e3, -⟩ := work_handler_fast_tier _
    rw [e1, e2, e3, work_handler_rf]
    refine ⟨h1, ?_, ?_, h4, h5⟩ <;> split_ifs <;> omega
  | cwrite p _ ih =>
    rcases auto_monitor_write_state_shape _ p with heq | ⟨v, hv, heq⟩ <;> rw [heq]
    · exact ih
    · obtain ⟨-, h2, h3, -, -⟩ := ih
      refine ⟨?_, ?_, ?_, ?_, ?_⟩ <;> dsimp only <;> omega
  | sstore p _ ih =>
    rcases workload_store_state_shape _ p with heq | ⟨v, hv, heq⟩ <;> rw [heq]
    · exact ih
    · obtain ⟨-, h2, h3, -, -⟩ := ih
      refine ⟨?_, ?_, ?_, ?_, ?_⟩ <;> dsimp only <;> omega

/-- C3: the resource factor is initialized to 5 and stays in `[1, 10]` in
every reachable state, across any interleaving of timer firings,
AdjustmentEngine passes and external writes. -/
theorem c3_resource_factor_bounds (s : MonitorData) (h : Reachable s) :
    auto_monitor_init_state.resource_allocation_factor = 5 ∧
    1 ≤ s.resource_allocation_factor ∧ s.resource_allocation_factor ≤ 10 := by
  obtain ⟨-, h2, h3, -, -⟩ := reachable_invariant s h
  exact ⟨rfl, h2, h3⟩

/-- C3 witness: the invariant instantiated at the initial state itself. -/
theorem c3_resource_factor_bounds_witness :
    auto_monitor_init_state.resource_allocation_factor = 5 ∧
    1 ≤ auto_monitor_init_state.resource_allocation_factor ∧
    auto_monitor_init_state.resource_allocation_factor ≤ 10 :=
  c3_resource_factor_bounds auto_monitor_init_state Reachable.init

/-- C4: in every reachable state the fast-tier triple is mutually
consistent — the temperature and memory-pressure fields are exactly the
functions `50 + wl / 2` and `wl * 2 / 3` of the stored workload, so a
snapshot never mixes values computed from different workload inputs. -/
theorem c4_triple_consistent (s : MonitorData) (h : Reachable s) :
    s.simulated_gpu_temp = 50 + s.current_sim_workload_level / 2 ∧
    s.simulated_memory_pressure = s.current_sim_workload_level * 2 / 3 := by
  obtain ⟨-, -, -, h4, h5⟩ := reachable_invariant s h
  exact ⟨h4, h5⟩

/-- C4 witness: the consistency of the triple at the initial state. -/
theorem c4_triple_consistent_witness :
    auto_monitor_init_state.simulated_gpu_temp
        = 50 + auto_monitor_init_state.current_sim_workload_level / 2 ∧
    auto_monitor_init_state.simulated_memory_pressure
        = auto_monitor_init_state.current_sim_workload_level * 2 / 3 :=
  c4_triple_consistent auto_monitor_init_state Reachable.init

/-- For every workload value in range, `kstrtoul` parses its decimal text
back exactly, and the text fits the byte-channel length guard. -/
theorem kstrtoul_repr : ∀ w : Nat, w < 101 →
    kstrtoul ((Nat.repr w).toList.takeWhile (fun c => c != Char.ofNat 0)) = some w ∧
    (Nat.repr w).toList.length ≤ 255 := by decide

/-- C5: writing the decimal text of any `w ≤ 100` through the byte channel
and then taking the composite-read snapshot reports `workloadLevel = w`,
`temperature = 50 + w / 2` and `memoryPressure = w * 2 / 3` (integer
division). -/
theorem c5_write_read_roundtrip (s : MonitorData) (w : Nat) (h : w ≤ 100) :
    (auto_monitor_read_summary
        (auto_monitor_write s (Nat.repr w).toList).state).workload = w ∧
    (auto_monitor_read_summary
        (auto_monitor_write s (Nat.repr w).toList).state).gpu_temp = 50 + w / 2 ∧
    (auto_monitor_read_summary
        (auto_monitor_write s (Nat.repr w).toList).state).memory_pressure
      = w * 2 / 3 := by
  obtain ⟨hp, hlen⟩ := kstrtoul_repr w (by omega)
  unfold auto_monitor_write
  rw [if_neg (by omega)]
  simp only [hp, MAX_WORKLOAD_LEVEL]
  rw [if_neg (by omega)]
  unfold auto_monitor_read_summary
  refine ⟨rfl, ?_, ?_⟩ <;> dsimp only <;> omega

/-- C5 witness: writing `"90"` to the freshly initialized state reports
workload 90, temperature 95 and memory pressure 60. -/
theorem c5_write_read_roundtrip_witness :
    (auto_monitor_read_summary
        (auto_monitor_write auto_monitor_init_state (Nat.repr 90).toList).state).workload
      = 90 ∧
    (auto_monitor_read_summary
        (auto_monitor_write auto_monitor_init_state (Nat.repr 90).toList).state).gpu_temp
      = 50 + 90 / 2 ∧
    (auto_monitor_read_summary
        (auto_monitor_write auto_monitor_init_state (Nat.repr 90).toList).state).memory_pressure
      = 90 * 2 / 3 :=
  c5_write_read_roundtrip auto_monitor_init_state 90 (by decide)

/-- C7: every payload `kstrtoul` cannot parse is rejected with `-EINVAL`;
the whole monitor state is returned untouched and no AdjustmentEngine work
is scheduled.  (Payloads over the length guard are likewise rejected with
`-EINVAL` before parsing, so the conclusion holds for every malformed
payload regardless of length.) -/
theorem c7_malformed_write_rejected (s : MonitorData) (p : List Char)
    (hp : kstrtoul (p.takeWhile (fun c => c != Char.ofNat 0)) = none) :
    (auto_monitor_write s p).ret = -22 ∧
    (auto_monitor_write s p).state = s ∧
    (auto_monitor_write s p).scheduled = false := by
  unfold auto_monitor_write
  split
  · exact ⟨rfl, rfl, rfl⟩
  · simp only [hp]
    exact ⟨trivial, trivial, trivial⟩

/-- C7 witness: the non-numeric payload `"abc"` is rejected and the initial
state is unchanged. -/
theorem c7_malformed_write_rejected_witness :
    (auto_monitor_write auto_monitor_init_state ['a', 'b', 'c']).ret = -22 ∧
    (auto_monitor_write auto_monitor_init_state ['a', 'b', 'c']).state
      = auto_monitor_init_state ∧
    (auto_monitor_write auto_monitor_init_state ['a', 'b', 'c']).scheduled = false :=
  c7_malformed_write_rejected auto_monitor_init_state ['a', 'b', 'c'] (by decide)

/-- C10: any payload longer than `sizeof(kbuf) - 1 = 255` bytes is rejected
with `-EINVAL` before any state is read or modified and before any work is
scheduled. -/
theorem c10_oversize_write_rejected (s : MonitorData) (p : List Char)
    (hlen : 255 < p.length) :
    (auto_monitor_write s p).ret = -22 ∧
    (auto_monitor_write s p).state = s ∧
    (auto_monitor_write s p).scheduled = false := by
  unfold auto_monitor_write
  rw [if_pos hlen]
  exact ⟨rfl, rfl, rfl⟩

set_option maxRecDepth 4000 in
/-- C10 witness: a 256-byte payload that parses to the valid in-range value
90 is still rejected with `-EINVAL`, state untouched, nothing scheduled. -/
theorem c10_oversize_write_rejected_witness :
    255 < oversize90.length ∧
    kstrtoul (oversize90.takeWhile (fun c => c != Char.ofNat 0)) = some 90 ∧
    ((auto_monitor_write auto_monitor_init_state oversize90).ret = -22 ∧
     (auto_monitor_write auto_monitor_init_state oversize90).state
       = auto_monitor_init_state ∧
     (auto_monitor_write auto_monitor_init_state oversize90).scheduled = false) :=
  ⟨by decide, by decide,
   c10_oversize_write_rejected auto_monitor_init_state oversize90 (by decide)⟩

/-- C6 counterexample: the claim predicts that the negative-equivalent
numeric payload `"-5"` stores workload 0 with the write reported as
success, and that every numeric input above 100 — including
`"18446744073709551616"`, which exceeds `ULONG_MAX` — stores 100 with
success.  In fact `kstrtoul` rejects both payloads, the write returns
`-EINVAL`, and the state (here with workload 7) is untouched. -/
theorem c6_counterexample :
    (auto_monitor_write wl7State ['-', '5']).ret = -22 ∧
    (auto_monitor_write wl7State ['-', '5']).state = wl7State ∧
    ¬ (0 ≤ (auto_monitor_write wl7State ['-', '5']).ret ∧
       (auto_monitor_write wl7State ['-', '5']).state.current_sim_workload_level = 0) ∧
    (auto_monitor_write wl7State "18446744073709551616".toList).ret = -22 ∧
    (auto_monitor_write wl7State "18446744073709551616".toList).state = wl7State := by
  decide

/-- C6 amended: an unsigned-decimal payload parsing to `v > 100` (hence
within `ULONG_MAX`) is clamped to 100 and the write reports success
(returning the byte count) and schedules work; a payload `kstrtoul`
rejects — which includes every minus-signed numeral and every numeral
above `ULONG_MAX` — yields `-EINVAL` with the state unchanged, so no input
reaches the dead clamp-to-0 branch. -/
theorem c6_amended_clamp_high (s : MonitorData) (p : List Char)
    (hlen : p.length ≤ 255) :
    (∀ v, kstrtoul (p.takeWhile (fun c => c != Char.ofNat 0)) = some v → 100 < v →
      (auto_monitor_write s p).ret = (p.length : Int) ∧
      (auto_monitor_write s p).state.current_sim_workload_level = 100 ∧
      (auto_monitor_write s p).scheduled = true) ∧
    (kstrtoul (p.takeWhile (fun c => c != Char.ofNat 0)) = none →
      (auto_monitor_write s p).ret = -22 ∧
      (auto_monitor_write s p).state = s ∧
      (auto_monitor_write s p).scheduled = false) := by
  constructor
  · intro v hp hv
    unfold auto_monitor_write
    rw [if_neg (by omega)]
    simp only [hp, MAX_WORKLOAD_LEVEL]
    refine ⟨trivial, ?_, trivial⟩
    dsimp only
    split_ifs <;> omega
  · intro hp
    unfold auto_monitor_write
    rw [if_neg (by omega)]
    simp only [hp]
    exact ⟨trivial, trivial, trivial⟩

/-- C6 witness for the amended claim: writing `"150"` to the initial state
returns the byte count 3, stores the clamped workload 100, and schedules an
adjustment pass. -/
theorem c6_amended_clamp_high_witness :
    (auto_monitor_write auto_monitor_init_state ['1', '5', '0']).ret
      = ((['1', '5', '0'] : List Char).length : Int) ∧
    (auto_monitor_write auto_monitor_init_state
        ['1', '5', '0']).state.current_sim_workload_level = 100 ∧
    (auto_monitor_write auto_monitor_init_state ['1', '5', '0']).scheduled = true :=
  (c6_amended_clamp_high auto_monitor_init_state ['1', '5', '0'] (by decide)).1
    150 (by decide) (by decide)

set_option maxRecDepth 4000 in
/-- C9 counterexample: on the 257-byte numeric payload the sysfs store
accepts (returns the byte count 257, stores workload 90, schedules work)
while the byte-channel write rejects it with `-EINVAL` and changes nothing,
so the two write surfaces are not equivalent for every input string. -/
theorem c9_counterexample :
    (workload_store auto_monitor_init_state zeroPadded90).ret = 257 ∧
    (workload_store auto_monitor_init_state
        zeroPadded90).state.current_sim_workload_level = 90 ∧
    (workload_store auto_monitor_init_state zeroPadded90).scheduled = true ∧
    (auto_monitor_write auto_monitor_init_state zeroPadded90).ret = -22 ∧
    (auto_monitor_write auto_monitor_init_state zeroPadded90).state
      = auto_monitor_init_state ∧
    (auto_monitor_write auto_monitor_init_state zeroPadded90).scheduled = false := by
  decide

/-- C9 amended: for every payload within the byte-channel's 255-byte length
guard, the sysfs `current_workload` store and the byte-channel write are
fully equivalent — same return value (byte count or the same `-EINVAL`
format error), same resulting state, and the same work-scheduling. -/
theorem c9_amended_equivalence (s : MonitorData) (p : List Char)
    (hlen : p.length ≤ 255) :
    workload_store s p = auto_monitor_write s p := by
  unfold workload_store auto_monitor_write
  rw [if_neg (by omega)]

/-- C9 witness for the amended claim: both surfaces agree on the short
payload `"42"`. -/
theorem c9_amended_equivalence_witness :
    workload_store auto_monitor_init_state ['4', '2']
      = auto_monitor_write auto_monitor_init_state ['4', '2'] :=
  c9_amended_equivalence auto_monitor_init_state ['4', '2'] (by decide)

/-- Iterated timer firings with a fixed random draw preserve
reachability. -/
theorem reachable_iterate_tick (s : MonitorData) (h : Reachable s)
    (r : Nat) (n : Nat) :
    Reachable ((fun t => monitor_timer_callback t r)^[n] s) := by
  induction n with
  | zero => exact h
  | succ n ih => rw [Function.iterate_succ_apply']; exact Reachable.tick r ih

/-- C8 bug: on the 10th firing from the reachable state `underflowState`
(workload 5) with `get_random_u32() % 20 = 0`, i.e. delta `-10`, the update
`wl + r % 20 - 10` underflows in `unsigned long`, the `< 0` clamp is dead
code on an unsigned value, and the `> 100` clamp then stores workload 100 —
where the claim requires the perturbed value clamped to `[0, 100]`, i.e. 0,
and in particular never a value above the previous workload 5. -/
theorem c8_underflow_stores_100 :
    Reachable underflowState ∧
    (monitor_timer_callback underflowState 0).timer_ticks % 10 = 0 ∧
    (monitor_timer_callback underflowState 0).current_sim_workload_level = 100 := by
  refine ⟨?_, by decide, by decide⟩
  have h0 : Reachable (auto_monitor_write auto_monitor_init_state ['5']).state :=
    Reachable.cwrite ['5'] Reachable.init
  have h9 := reachable_iterate_tick _ h0 0 9
  have heq : (fun t => monitor_timer_callback t 0)^[9]
      (auto_monitor_write auto_monitor_init_state ['5']).state = underflowState := by
    decide
  rw [heq] at h9
  exact h9

